import Mathlib

/-!
The driver pdftoolspdf2imgsimple: the conversion driver and its resource handling

A shallow embedding of `src/pdftoolspdf2imgsimple.c`.  The program is a
straight-line driver around calls into the C library and the PDF Tools SDK.
Those calls are external, so a run is modelled as a function of

* `argc` / `argv`,
* an `Env` that fixes, for every external call that can fail, whether it
  returns `NULL`, and the length `PdfTools_GetLastErrorMessage(NULL, 0)` reports,

and it produces the exit status of `main` together with the ordered trace of
every external call the program makes (with the arguments and results that
matter here).
-/

namespace Pdf2Img

/-! ## Data model -/

/-- The six objects `main` holds a pointer to, in the order the source acquires
them: `pInStream`, `pInDoc`, `pOutStream`, `pProfile`, `pConverter`, `pOutDoc`. -/
inductive Resource
  | inStream
  | inDoc
  | outStream
  | profile
  | converter
  | outDoc
  deriving DecidableEq, Repr

/-- A C pointer to one of the resources; `none` is `NULL`. -/
abbrev Handle := Option Resource

/-- The values the source passes to `_tprintf` after the format string. -/
inductive PrintfArg
  | str (s : String)
  | szErrorBuff
  | lastError
  deriving DecidableEq, Repr

/-- One external call made by the program.  Every constructor is a function the
source calls; the fields are the arguments and results the driver logic depends on. -/
inductive Event
  | setlocale
  | printf (fmt : String) (args : List PrintfArg)
  | PdfTools_Initialize
  | fopen (path mode : String) (ret : Handle)
  | PdfToolsSysCreateFILEStreamDescriptor (stream : Handle)
  | PdfToolsPdf_Document_Open (ret : Handle)
  | PdfToolsPdf2ImageProfiles_Archive_New (ret : Handle)
  | PdfToolsPdf2Image_Converter_New (ret : Handle)
  | PdfToolsPdf2Image_Converter_ConvertDocument (pConverter pInDoc pProfile ret : Handle)
  | PdfTools_GetLastErrorMessage (buffer : Bool) (size : Nat)
  | PdfTools_GetLastError
  | PdfToolsImage_Document_Close (h : Handle)
  | PdfTools_Release (h : Handle)
  | fclose (h : Handle)
  | PdfToolsPdf_Document_Close (h : Handle)
  | PdfTools_Uninitialize
  deriving DecidableEq, Repr

/-- The outcome of every external call whose result the program looks at:
`true` means the call returns a non-`NULL` pointer. `lastErrorMessageSize` is
the `size_t` returned by `PdfTools_GetLastErrorMessage(NULL, 0)`. -/
structure Env where
  fopenIn : Bool
  documentOpen : Bool
  fopenOut : Bool
  archiveNew : Bool
  converterNew : Bool
  convertDocument : Bool
  lastErrorMessageSize : Nat
  deriving DecidableEq, Repr

/-- The local variables of `main` (pointers as handles) and the trace so far. -/
structure State where
  iRet : Int
  nBufSize : Nat
  pInStream : Handle
  pOutStream : Handle
  pInDoc : Handle
  pOutDoc : Handle
  pProfile : Handle
  pConverter : Handle
  trace : List Event
  deriving DecidableEq, Repr

/-- Append one external call to the trace. -/
def State.emit (st : State) (e : Event) : State :=
  { st with trace := st.trace ++ [e] }

/-- The pointer an external call returns: the resource when it succeeds, `NULL` otherwise. -/
def ptr (ok : Bool) (r : Resource) : Handle :=
  if ok then some r else none

/-! ## Macros of the source -/

/-- The macro `MIN(a, b)`: `((a) < (b) ? (a) : (b))`. -/
def MIN (a b : Nat) : Nat :=
  if a < b then a else b

/-- The macro `ARRAY_SIZE(a)`: `sizeof(a) / sizeof(a)[0]`, on the two byte sizes. -/
def ARRAY_SIZE (sizeofArray sizeofElem : Nat) : Nat :=
  sizeofArray / sizeofElem

/-- The value of `sizeof(TCHAR)` with `#define TCHAR char`. -/
def sizeofTCHAR : Nat := 1

/-- The value of `ARRAY_SIZE(szErrorBuff)` for `TCHAR szErrorBuff[1024]`. -/
def szErrorBuffSize : Nat :=
  ARRAY_SIZE (1024 * sizeofTCHAR) sizeofTCHAR

/-- The calls made while the arguments of `_tprintf` are evaluated: one
`PdfTools_GetLastError()` for each argument that is that call. -/
def evalArgs (args : List PrintfArg) : List Event :=
  args.filterMap fun a =>
    match a with
    | .lastError => some .PdfTools_GetLastError
    | _ => none

/-- The macro `GOTO_CLEANUP_IF_NULL_PRINT_ERROR(inVar, fmt, args...)`.  When
`inVar` is `NULL` it asks for the message length, fetches the message into
`szErrorBuff` with the size `MIN(ARRAY_SIZE(szErrorBuff), nBufSize)`, prints the
diagnostic, sets `iRet = 1` and jumps to `cleanup` (`Except.error`).  Otherwise
execution continues (`Except.ok`). -/
def GOTO_CLEANUP_IF_NULL_PRINT_ERROR (env : Env) (st : State) (inVar : Handle)
    (fmt : String) (args : List PrintfArg) : Except State State :=
  match inVar with
  | none =>
    let st := st.emit (.PdfTools_GetLastErrorMessage false 0)
    let st := { st with nBufSize := env.lastErrorMessageSize }
    let st := st.emit (.PdfTools_GetLastErrorMessage true (MIN szErrorBuffSize st.nBufSize))
    let st := { st with trace := st.trace ++ evalArgs args }
    let st := st.emit (.printf fmt args)
    let st := { st with iRet := 1 }
    .error st
  | some _ => .ok st

/-! ## The functions of the source -/

/-- The function `Usage`: prints four lines and returns 1. -/
def Usage (trace : List Event) : Int × List Event :=
  (1, trace ++
    [ .printf "Usage: pdftoolspdf2imgsimple <inputPath> <outputPath>.\n" [],
      .printf "return codes:\n" [],
      .printf "    0: Successful completion\n" [],
      .printf "    1: Execution failed\n" [] ])

/-- The statements of `main` from `PdfTools_Initialize()` to the label `cleanup`.
`Except.error` is a jump to `cleanup`, `Except.ok` is falling through to it. -/
def body (env : Env) (szInPath szOutPath : String) (st : State) : Except State State := do
  let st := st.emit .PdfTools_Initialize
  -- Open input document
  let st := { st with pInStream := ptr env.fopenIn .inStream }
  let st := st.emit (.fopen szInPath "rb" st.pInStream)
  let st ← GOTO_CLEANUP_IF_NULL_PRINT_ERROR env st st.pInStream
    "Failed to open the input file \"%s\" for reading.\n" [.str szInPath]
  let st := st.emit (.PdfToolsSysCreateFILEStreamDescriptor st.pInStream)
  let st := { st with pInDoc := ptr env.documentOpen .inDoc }
  let st := st.emit (.PdfToolsPdf_Document_Open st.pInDoc)
  let st ← GOTO_CLEANUP_IF_NULL_PRINT_ERROR env st st.pInDoc
    "Failed to create a document from the input file \"%s\". %s (ErrorCode: 0x%08x).\n"
    [.str szInPath, .szErrorBuff, .lastError]
  -- Create output stream for writing
  let st := { st with pOutStream := ptr env.fopenOut .outStream }
  let st := st.emit (.fopen szOutPath "wb+" st.pOutStream)
  let st ← GOTO_CLEANUP_IF_NULL_PRINT_ERROR env st st.pOutStream
    "Failed to open the output file \"%s\" for writing.\n" [.str szOutPath]
  let st := st.emit (.PdfToolsSysCreateFILEStreamDescriptor st.pOutStream)
  -- Create the profile that defines the conversion parameters
  let st := { st with pProfile := ptr env.archiveNew .profile }
  let st := st.emit (.PdfToolsPdf2ImageProfiles_Archive_New st.pProfile)
  -- Convert the PDF document to an image document
  let st := { st with pConverter := ptr env.converterNew .converter }
  let st := st.emit (.PdfToolsPdf2Image_Converter_New st.pConverter)
  let st := { st with pOutDoc := ptr env.convertDocument .outDoc }
  let st := st.emit
    (.PdfToolsPdf2Image_Converter_ConvertDocument st.pConverter st.pInDoc st.pProfile st.pOutDoc)
  let st ← GOTO_CLEANUP_IF_NULL_PRINT_ERROR env st st.pOutDoc
    "The processing has failed. (ErrorCode: 0x%08x).\n" [.lastError]
  pure (st.emit (.printf "Execution successful.\n" []))

/-- The statements of `main` from the label `cleanup` to `return iRet`. -/
def cleanup (st : State) : Int × List Event :=
  let st := if st.pOutDoc.isSome then st.emit (.PdfToolsImage_Document_Close st.pOutDoc) else st
  let st := st.emit (.PdfTools_Release st.pConverter)
  let st := st.emit (.PdfTools_Release st.pProfile)
  let st := if st.pOutStream.isSome then st.emit (.fclose st.pOutStream) else st
  let st := if st.pInDoc.isSome then st.emit (.PdfToolsPdf_Document_Close st.pInDoc) else st
  let st := if st.pInStream.isSome then st.emit (.fclose st.pInStream) else st
  let st := st.emit Event.PdfTools_Uninitialize
  (st.iRet, st.trace)

/-- The function `main` (`_tmain`): the exit status and the trace of external calls.
`argv[1]` and `argv[2]` are read only when `argc` is 3. -/
def main (argc : Int) (argv : List String) (env : Env) : Int × List Event :=
  let trace := [Event.setlocale]
  if argc < 3 ∨ argc > 3 then
    Usage trace
  else
    let szInPath := argv.getD 1 ""
    let szOutPath := argv.getD 2 ""
    let st : State :=
      { iRet := 0, nBufSize := 0, pInStream := none, pOutStream := none, pInDoc := none,
        pOutDoc := none, pProfile := none, pConverter := none, trace := trace }
    match body env szInPath szOutPath st with
    | .ok st => cleanup st
    | .error st => cleanup st

/-! ## Observations on a trace -/

/-- The completion message printed by `main` on success. -/
def completionMessage : Event :=
  .printf "Execution successful.\n" []

/-- The resources a trace acquires, in order: the non-`NULL` results of the two
`fopen` calls, of the document open, of the two constructors and of the conversion. -/
def acquired (t : List Event) : List Resource :=
  t.filterMap fun e =>
    match e with
    | .fopen _ _ ret => ret
    | .PdfToolsPdf_Document_Open ret => ret
    | .PdfToolsPdf2ImageProfiles_Archive_New ret => ret
    | .PdfToolsPdf2Image_Converter_New ret => ret
    | .PdfToolsPdf2Image_Converter_ConvertDocument _ _ _ ret => ret
    | _ => none

/-- The resources a trace releases, in order: the non-`NULL` arguments of the
close and release calls (a release call on `NULL` releases nothing). -/
def released (t : List Event) : List Resource :=
  t.filterMap fun e =>
    match e with
    | .PdfToolsImage_Document_Close h => h
    | .PdfTools_Release h => h
    | .fclose h => h
    | .PdfToolsPdf_Document_Close h => h
    | _ => none

/-- Every call except `setlocale` and `printf`: the calls into the SDK and the file calls. -/
def isEngineOrFile (e : Event) : Bool :=
  match e with
  | .setlocale => false
  | .printf _ _ => false
  | _ => true

/-- The calls to `printf` of a trace, as (format, arguments). -/
def printed (t : List Event) : List (String × List PrintfArg) :=
  t.filterMap fun e =>
    match e with
    | .printf fmt args => some (fmt, args)
    | _ => none

/-- The calls to `fopen` of a trace, as (path, mode, result). -/
def fopenCalls (t : List Event) : List (String × String × Handle) :=
  t.filterMap fun e =>
    match e with
    | .fopen path mode ret => some (path, mode, ret)
    | _ => none

/-- The results of the calls to `PdfToolsPdf2Image_Converter_ConvertDocument` of a trace. -/
def convertCalls (t : List Event) : List Handle :=
  t.filterMap fun e =>
    match e with
    | .PdfToolsPdf2Image_Converter_ConvertDocument _ _ _ ret => some ret
    | _ => none

/-- The arguments of the calls to `PdfToolsImage_Document_Close` of a trace. -/
def outDocCloses (t : List Event) : List Handle :=
  t.filterMap fun e =>
    match e with
    | .PdfToolsImage_Document_Close h => some h
    | _ => none

/-- The (buffer given, size) arguments of the calls to `PdfTools_GetLastErrorMessage`. -/
def errorMessageCalls (t : List Event) : List (Bool × Nat) :=
  t.filterMap fun e =>
    match e with
    | .PdfTools_GetLastErrorMessage buffer size => some (buffer, size)
    | _ => none

/-- The calls a diagnostic is made of, in trace order: the two calls to
`PdfTools_GetLastErrorMessage`, the call to `PdfTools_GetLastError` and `printf`. -/
def diagnosticCalls (t : List Event) : List Event :=
  t.filter fun e =>
    match e with
    | .PdfTools_GetLastErrorMessage _ _ => true
    | .PdfTools_GetLastError => true
    | .printf _ _ => true
    | _ => false

/-- The calls that open a document or build a profile or converter or convert. -/
def isPipelineCall (e : Event) : Bool :=
  match e with
  | .PdfToolsPdf_Document_Open _ => true
  | .PdfToolsPdf2ImageProfiles_Archive_New _ => true
  | .PdfToolsPdf2Image_Converter_New _ => true
  | .PdfToolsPdf2Image_Converter_ConvertDocument _ _ _ _ => true
  | _ => false

/-- The acquisition sequence of `main`, in source order: input stream, input
document, output stream, profile, converter, output document. -/
def acquisitionSequence : List Resource :=
  [.inStream, .inDoc, .outStream, .profile, .converter, .outDoc]

/-- The outcome in `env` of acquisition step `N` of `acquisitionSequence` (1 to 6);
there is no step beyond the sixth. -/
def stepOk (env : Env) (N : Nat) : Bool :=
  match N with
  | 1 => env.fopenIn
  | 2 => env.documentOpen
  | 3 => env.fopenOut
  | 4 => env.archiveNew
  | 5 => env.converterNew
  | 6 => env.convertDocument
  | _ => false

/-- A failure is injected at step `N`: every earlier step succeeds and step `N`
does not.  `N = 7` is the fully successful run (all six steps succeed). -/
def failureAt (env : Env) (N : Nat) : Prop :=
  1 ≤ N ∧ N ≤ 7 ∧ (∀ i, 1 ≤ i → i < N → stepOk env i = true) ∧ stepOk env N = false

/-! ## The paths through `main` -/

/-- With an argument count other than 3, `main` is `setlocale` followed by `Usage`. -/
theorem main_usage (argc : Int) (argv : List String) (env : Env) (h : argc ≠ 3) :
    main argc argv env = Usage [Event.setlocale] := by
  have h2 : argc < 3 ∨ argc > 3 := by omega
  simp [main, h2]

/-- The run in which the input `fopen` returns `NULL`. -/
theorem main_fopenIn_fails (argv : List String) (env : Env) (h1 : env.fopenIn = false) :
    main 3 argv env =
      (1, [Event.setlocale, Event.PdfTools_Initialize,
        .fopen (argv.getD 1 "") "rb" none,
        .PdfTools_GetLastErrorMessage false 0,
        .PdfTools_GetLastErrorMessage true (MIN szErrorBuffSize env.lastErrorMessageSize),
        .printf "Failed to open the input file \"%s\" for reading.\n" [.str (argv.getD 1 "")],
        .PdfTools_Release none, .PdfTools_Release none, Event.PdfTools_Uninitialize]) := by
  rcases env with ⟨a, b, c, d, e, f, n⟩
  simp only at h1
  subst h1
  rfl

/-- The run in which the input stream opens and `PdfToolsPdf_Document_Open` returns `NULL`. -/
theorem main_documentOpen_fails (argv : List String) (env : Env) (h1 : env.fopenIn = true)
    (h2 : env.documentOpen = false) :
    main 3 argv env =
      (1, [Event.setlocale, Event.PdfTools_Initialize,
        .fopen (argv.getD 1 "") "rb" (some .inStream),
        .PdfToolsSysCreateFILEStreamDescriptor (some .inStream),
        .PdfToolsPdf_Document_Open none,
        .PdfTools_GetLastErrorMessage false 0,
        .PdfTools_GetLastErrorMessage true (MIN szErrorBuffSize env.lastErrorMessageSize),
        .PdfTools_GetLastError,
        .printf
          "Failed to create a document from the input file \"%s\". %s (ErrorCode: 0x%08x).\n"
          [.str (argv.getD 1 ""), .szErrorBuff, .lastError],
        .PdfTools_Release none, .PdfTools_Release none,
        .fclose (some .inStream), Event.PdfTools_Uninitialize]) := by
  rcases env with ⟨a, b, c, d, e, f, n⟩
  simp only at h1 h2
  subst h1 h2
  rfl

/-- The run in which input stream and document open and the output `fopen` returns `NULL`. -/
theorem main_fopenOut_fails (argv : List String) (env : Env) (h1 : env.fopenIn = true)
    (h2 : env.documentOpen = true) (h3 : env.fopenOut = false) :
    main 3 argv env =
      (1, [Event.setlocale, Event.PdfTools_Initialize,
        .fopen (argv.getD 1 "") "rb" (some .inStream),
        .PdfToolsSysCreateFILEStreamDescriptor (some .inStream),
        .PdfToolsPdf_Document_Open (some .inDoc),
        .fopen (argv.getD 2 "") "wb+" none,
        .PdfTools_GetLastErrorMessage false 0,
        .PdfTools_GetLastErrorMessage true (MIN szErrorBuffSize env.lastErrorMessageSize),
        .printf "Failed to open the output file \"%s\" for writing.\n" [.str (argv.getD 2 "")],
        .PdfTools_Release none, .PdfTools_Release none,
        .PdfToolsPdf_Document_Close (some .inDoc),
        .fclose (some .inStream), Event.PdfTools_Uninitialize]) := by
  rcases env with ⟨a, b, c, d, e, f, n⟩
  simp only at h1 h2 h3
  subst h1 h2 h3
  rfl

/-- The run in which both streams and the input document open and
`PdfToolsPdf2Image_Converter_ConvertDocument` returns `NULL`. -/
theorem main_convert_fails (argv : List String) (env : Env) (h1 : env.fopenIn = true)
    (h2 : env.documentOpen = true) (h3 : env.fopenOut = true)
    (h4 : env.convertDocument = false) :
    main 3 argv env =
      (1, [Event.setlocale, Event.PdfTools_Initialize,
        .fopen (argv.getD 1 "") "rb" (some .inStream),
        .PdfToolsSysCreateFILEStreamDescriptor (some .inStream),
        .PdfToolsPdf_Document_Open (some .inDoc),
        .fopen (argv.getD 2 "") "wb+" (some .outStream),
        .PdfToolsSysCreateFILEStreamDescriptor (some .outStream),
        .PdfToolsPdf2ImageProfiles_Archive_New (ptr env.archiveNew .profile),
        .PdfToolsPdf2Image_Converter_New (ptr env.converterNew .converter),
        .PdfToolsPdf2Image_Converter_ConvertDocument (ptr env.converterNew .converter)
          (some .inDoc) (ptr env.archiveNew .profile) none,
        .PdfTools_GetLastErrorMessage false 0,
        .PdfTools_GetLastErrorMessage true (MIN szErrorBuffSize env.lastErrorMessageSize),
        .PdfTools_GetLastError,
        .printf "The processing has failed. (ErrorCode: 0x%08x).\n" [.lastError],
        .PdfTools_Release (ptr env.converterNew .converter),
        .PdfTools_Release (ptr env.archiveNew .profile),
        .fclose (some .outStream),
        .PdfToolsPdf_Document_Close (some .inDoc),
        .fclose (some .inStream), Event.PdfTools_Uninitialize]) := by
  rcases env with ⟨a, b, c, d, e, f, n⟩
  simp only at h1 h2 h3 h4
  subst h1 h2 h3 h4
  simp [main, body, GOTO_CLEANUP_IF_NULL_PRINT_ERROR, cleanup, State.emit, ptr, evalArgs,
    bind, Except.bind, pure, Except.pure]

/-- The run in which both streams and the input document open and
`PdfToolsPdf2Image_Converter_ConvertDocument` returns an output document. -/
theorem main_convert_succeeds (argv : List String) (env : Env) (h1 : env.fopenIn = true)
    (h2 : env.documentOpen = true) (h3 : env.fopenOut = true)
    (h4 : env.convertDocument = true) :
    main 3 argv env =
      (0, [Event.setlocale, Event.PdfTools_Initialize,
        .fopen (argv.getD 1 "") "rb" (some .inStream),
        .PdfToolsSysCreateFILEStreamDescriptor (some .inStream),
        .PdfToolsPdf_Document_Open (some .inDoc),
        .fopen (argv.getD 2 "") "wb+" (some .outStream),
        .PdfToolsSysCreateFILEStreamDescriptor (some .outStream),
        .PdfToolsPdf2ImageProfiles_Archive_New (ptr env.archiveNew .profile),
        .PdfToolsPdf2Image_Converter_New (ptr env.converterNew .converter),
        .PdfToolsPdf2Image_Converter_ConvertDocument (ptr env.converterNew .converter)
          (some .inDoc) (ptr env.archiveNew .profile) (some .outDoc),
        .printf "Execution successful.\n" [],
        .PdfToolsImage_Document_Close (some .outDoc),
        .PdfTools_Release (ptr env.converterNew .converter),
        .PdfTools_Release (ptr env.archiveNew .profile),
        .fclose (some .outStream),
        .PdfToolsPdf_Document_Close (some .inDoc),
        .fclose (some .inStream), Event.PdfTools_Uninitialize]) := by
  rcases env with ⟨a, b, c, d, e, f, n⟩
  simp only at h1 h2 h3 h4
  subst h1 h2 h3 h4
  simp [main, body, GOTO_CLEANUP_IF_NULL_PRINT_ERROR, cleanup, State.emit, ptr, evalArgs,
    bind, Except.bind, pure, Except.pure]

/-- Every run with three arguments takes one of the five paths above. -/
theorem env_paths (env : Env) :
    env.fopenIn = false ∨
    (env.fopenIn = true ∧ env.documentOpen = false) ∨
    (env.fopenIn = true ∧ env.documentOpen = true ∧ env.fopenOut = false) ∨
    (env.fopenIn = true ∧ env.documentOpen = true ∧ env.fopenOut = true ∧
      env.convertDocument = false) ∨
    (env.fopenIn = true ∧ env.documentOpen = true ∧ env.fopenOut = true ∧
      env.convertDocument = true) := by
  rcases env with ⟨a, b, c, d, e, f, n⟩
  cases a <;> cases b <;> cases c <;> cases f <;> simp

/-! ## Exit status -/

/-- C1: `main` returns 0 and prints the completion message exactly when `argc` is 3
and the input `fopen`, `PdfToolsPdf_Document_Open`, the output `fopen` and
`PdfToolsPdf2Image_Converter_ConvertDocument` all return non-null; in every other
case it returns 1 and does not print the completion message; the status is
always 0 or 1. -/
theorem main_exit_status (argc : Int) (argv : List String) (env : Env) :
    (((main argc argv env).1 = 0 ∧ completionMessage ∈ (main argc argv env).2) ↔
      (argc = 3 ∧ env.fopenIn = true ∧ env.documentOpen = true ∧ env.fopenOut = true ∧
        env.convertDocument = true)) ∧
    (¬ (argc = 3 ∧ env.fopenIn = true ∧ env.documentOpen = true ∧ env.fopenOut = true ∧
        env.convertDocument = true) →
      (main argc argv env).1 = 1 ∧ completionMessage ∉ (main argc argv env).2) ∧
    ((main argc argv env).1 = 0 ∨ (main argc argv env).1 = 1) := by
  by_cases hc : argc = 3
  · subst hc
    rcases env_paths env with h1 | ⟨h1, h2⟩ | ⟨h1, h2, h3⟩ | ⟨h1, h2, h3, h4⟩ | ⟨h1, h2, h3, h4⟩
    · rw [main_fopenIn_fails argv env h1]
      simp [completionMessage, h1]
    · rw [main_documentOpen_fails argv env h1 h2]
      simp [completionMessage, h1, h2]
    · rw [main_fopenOut_fails argv env h1 h2 h3]
      simp [completionMessage, h1, h2, h3]
    · rw [main_convert_fails argv env h1 h2 h3 h4]
      simp [completionMessage, h1, h2, h3, h4]
    · rw [main_convert_succeeds argv env h1 h2 h3 h4]
      simp [completionMessage, h1, h2, h3, h4]
  · rw [main_usage argc argv env hc]
    simp [Usage, completionMessage, hc]

/-- C2: for every `argc` other than 3, `main` returns the value of `Usage()`, which
is 1, and its trace is `setlocale` followed by the four `printf` calls of `Usage`:
no `PdfTools_Initialize`, no `fopen`, no SDK call, no close or release call and no
`PdfTools_Uninitialize`. -/
theorem main_usage_touches_nothing (argc : Int) (argv : List String) (env : Env)
    (h : argc ≠ 3) :
    (main argc argv env).1 = 1 ∧
    (main argc argv env).1 = (Usage [Event.setlocale]).1 ∧
    (main argc argv env).2 =
      [Event.setlocale,
        .printf "Usage: pdftoolspdf2imgsimple <inputPath> <outputPath>.\n" [],
        .printf "return codes:\n" [],
        .printf "    0: Successful completion\n" [],
        .printf "    1: Execution failed\n" []] ∧
    (∀ e ∈ (main argc argv env).2, isEngineOrFile e = false) ∧
    acquired (main argc argv env).2 = [] ∧
    released (main argc argv env).2 = [] := by
  rw [main_usage argc argv env h]
  simp [Usage, isEngineOrFile, acquired, released]

/-- C2 at a concrete input: a run with a single user argument. -/
theorem main_usage_touches_nothing_witness :
    (main 2 ["pdftoolspdf2imgsimple", "in.pdf"] ⟨true, true, true, true, true, true, 0⟩).1 = 1 ∧
    (∀ e ∈ (main 2 ["pdftoolspdf2imgsimple", "in.pdf"] ⟨true, true, true, true, true, true, 0⟩).2,
      isEngineOrFile e = false) :=
  have h := main_usage_touches_nothing 2 ["pdftoolspdf2imgsimple", "in.pdf"]
    ⟨true, true, true, true, true, true, 0⟩ (by decide)
  ⟨h.1, h.2.2.2.1⟩

/-! ## The resource ledger -/

/-- C3 at the failing input: `PdfToolsPdf2ImageProfiles_Archive_New` returns `NULL`
after three successful steps (a failure injected at step 4).  The source has no
`NULL` check there, so the run goes on to acquire the converter, and cleanup
releases the converter as well as the resources of steps 1 to 3: the released
resources are not the resources of steps 1 to 3. -/
theorem ledger_step4_releases_converter :
    failureAt ⟨true, true, true, false, true, false, 0⟩ 4 ∧
    acquired (main 3 ["pdftoolspdf2imgsimple", "in.pdf", "out.tif"]
      ⟨true, true, true, false, true, false, 0⟩).2 =
      [.inStream, .inDoc, .outStream, .converter] ∧
    released (main 3 ["pdftoolspdf2imgsimple", "in.pdf", "out.tif"]
      ⟨true, true, true, false, true, false, 0⟩).2 =
      [.converter, .outStream, .inDoc, .inStream] ∧
    released (main 3 ["pdftoolspdf2imgsimple", "in.pdf", "out.tif"]
      ⟨true, true, true, false, true, false, 0⟩).2 ≠
      (acquisitionSequence.take (4 - 1)).reverse := by
  refine ⟨⟨by decide, by decide, ?_, rfl⟩, ?_, ?_, ?_⟩
  · intro i h1 h2
    interval_cases i <;> rfl
  · rw [main_convert_fails _ _ rfl rfl rfl rfl]
    simp [acquired, ptr]
  · rw [main_convert_fails _ _ rfl rfl rfl rfl]
    simp [released, ptr]
  · rw [main_convert_fails _ _ rfl rfl rfl rfl]
    simp [released, ptr, acquisitionSequence]

/-- The cleanup block on every path: counting a release only when the handle is
not `NULL`, the resources released are the resources the run acquired, each
once, in the reverse of the order of acquisition, and the acquisitions follow
the acquisition sequence. -/
theorem cleanup_releases_acquired (argc : Int) (argv : List String) (env : Env) :
    released (main argc argv env).2 = (acquired (main argc argv env).2).reverse ∧
    (released (main argc argv env).2).Nodup ∧
    (acquired (main argc argv env).2).Sublist acquisitionSequence := by
  by_cases hc : argc = 3
  · subst hc
    rcases env_paths env with h1 | ⟨h1, h2⟩ | ⟨h1, h2, h3⟩ | ⟨h1, h2, h3, h4⟩ | ⟨h1, h2, h3, h4⟩
    · rw [main_fopenIn_fails argv env h1]
      simp [released, acquired]
    · rw [main_documentOpen_fails argv env h1 h2]
      simp [released, acquired, acquisitionSequence]
    · rw [main_fopenOut_fails argv env h1 h2 h3]
      simp [released, acquired, acquisitionSequence]
    · rw [main_convert_fails argv env h1 h2 h3 h4]
      cases env.archiveNew <;> cases env.converterNew <;>
        simp [released, acquired, ptr, acquisitionSequence]
    · rw [main_convert_succeeds argv env h1 h2 h3 h4]
      cases env.archiveNew <;> cases env.converterNew <;>
        simp [released, acquired, ptr, acquisitionSequence]
  · rw [main_usage argc argv env hc]
    simp [Usage, released, acquired]

/-- Where the run does stop at the injected failure, the released resources are
those of steps 1 to `N - 1`: for a failure at step 1, 2, 3 or 6, for the fully
successful run (`N = 7`), for a failure at step 4 when the converter and the
conversion fail as well, and for a failure at step 5 when the conversion fails
as well. -/
theorem released_up_to_failure (argv : List String) (env : Env) (N : Nat)
    (hN : failureAt env N)
    (h4 : N = 4 → env.converterNew = false ∧ env.convertDocument = false)
    (h5 : N = 5 → env.convertDocument = false) :
    released (main 3 argv env).2 = (acquisitionSequence.take (N - 1)).reverse := by
  obtain ⟨hlo, hhi, hpre, hfail⟩ := hN
  interval_cases N
  · have h1 : env.fopenIn = false := hfail
    rw [main_fopenIn_fails argv env h1]
    simp [released, acquisitionSequence]
  · have h1 : env.fopenIn = true := hpre 1 (by norm_num) (by norm_num)
    have h2 : env.documentOpen = false := hfail
    rw [main_documentOpen_fails argv env h1 h2]
    simp [released, acquisitionSequence]
  · have h1 : env.fopenIn = true := hpre 1 (by norm_num) (by norm_num)
    have h2 : env.documentOpen = true := hpre 2 (by norm_num) (by norm_num)
    have h3 : env.fopenOut = false := hfail
    rw [main_fopenOut_fails argv env h1 h2 h3]
    simp [released, acquisitionSequence]
  · have h1 : env.fopenIn = true := hpre 1 (by norm_num) (by norm_num)
    have h2 : env.documentOpen = true := hpre 2 (by norm_num) (by norm_num)
    have h3 : env.fopenOut = true := hpre 3 (by norm_num) (by norm_num)
    have h4a : env.archiveNew = false := hfail
    obtain ⟨h5a, h6⟩ := h4 rfl
    rw [main_convert_fails argv env h1 h2 h3 h6]
    simp [released, acquisitionSequence, ptr, h4a, h5a]
  · have h1 : env.fopenIn = true := hpre 1 (by norm_num) (by norm_num)
    have h2 : env.documentOpen = true := hpre 2 (by norm_num) (by norm_num)
    have h3 : env.fopenOut = true := hpre 3 (by norm_num) (by norm_num)
    have h4a : env.archiveNew = true := hpre 4 (by norm_num) (by norm_num)
    have h5a : env.converterNew = false := hfail
    have h6 : env.convertDocument = false := h5 rfl
    rw [main_convert_fails argv env h1 h2 h3 h6]
    simp [released, acquisitionSequence, ptr, h4a, h5a]
  · have h1 : env.fopenIn = true := hpre 1 (by norm_num) (by norm_num)
    have h2 : env.documentOpen = true := hpre 2 (by norm_num) (by norm_num)
    have h3 : env.fopenOut = true := hpre 3 (by norm_num) (by norm_num)
    have h4a : env.archiveNew = true := hpre 4 (by norm_num) (by norm_num)
    have h5a : env.converterNew = true := hpre 5 (by norm_num) (by norm_num)
    have h6 : env.convertDocument = false := hfail
    rw [main_convert_fails argv env h1 h2 h3 h6]
    simp [released, acquisitionSequence, ptr, h4a, h5a]
  · have h1 : env.fopenIn = true := hpre 1 (by norm_num) (by norm_num)
    have h2 : env.documentOpen = true := hpre 2 (by norm_num) (by norm_num)
    have h3 : env.fopenOut = true := hpre 3 (by norm_num) (by norm_num)
    have h4a : env.archiveNew = true := hpre 4 (by norm_num) (by norm_num)
    have h5a : env.converterNew = true := hpre 5 (by norm_num) (by norm_num)
    have h6 : env.convertDocument = true := hpre 6 (by norm_num) (by norm_num)
    rw [main_convert_succeeds argv env h1 h2 h3 h6]
    simp [released, acquisitionSequence, ptr, h4a, h5a]

/-- C4 at the failing input: `PdfToolsPdf2ImageProfiles_Archive_New` returns `NULL`
after the streams and the input document opened.  The run does not jump to
`cleanup`: it calls `PdfToolsPdf2Image_Converter_New` and then
`PdfToolsPdf2Image_Converter_ConvertDocument` with the `NULL` profile.  The same
happens with a `NULL` converter. -/
theorem null_profile_still_converts :
    main 3 ["pdftoolspdf2imgsimple", "in.pdf", "out.tif"]
        ⟨true, true, true, false, true, false, 0⟩ =
      (1, [Event.setlocale, Event.PdfTools_Initialize,
        .fopen "in.pdf" "rb" (some .inStream),
        .PdfToolsSysCreateFILEStreamDescriptor (some .inStream),
        .PdfToolsPdf_Document_Open (some .inDoc),
        .fopen "out.tif" "wb+" (some .outStream),
        .PdfToolsSysCreateFILEStreamDescriptor (some .outStream),
        .PdfToolsPdf2ImageProfiles_Archive_New none,
        .PdfToolsPdf2Image_Converter_New (some .converter),
        .PdfToolsPdf2Image_Converter_ConvertDocument (some .converter) (some .inDoc) none none,
        .PdfTools_GetLastErrorMessage false 0,
        .PdfTools_GetLastErrorMessage true 0,
        .PdfTools_GetLastError,
        .printf "The processing has failed. (ErrorCode: 0x%08x).\n" [.lastError],
        .PdfTools_Release (some .converter),
        .PdfTools_Release none,
        .fclose (some .outStream),
        .PdfToolsPdf_Document_Close (some .inDoc),
        .fclose (some .inStream), Event.PdfTools_Uninitialize]) ∧
    Event.PdfToolsPdf2Image_Converter_ConvertDocument none (some .inDoc) (some .profile) none ∈
      (main 3 ["pdftoolspdf2imgsimple", "in.pdf", "out.tif"]
        ⟨true, true, true, true, false, false, 0⟩).2 := by
  constructor
  · rw [main_convert_fails _ _ rfl rfl rfl rfl]
    simp [ptr, MIN, szErrorBuffSize, ARRAY_SIZE, sizeofTCHAR]
  · rw [main_convert_fails _ _ rfl rfl rfl rfl]
    simp [ptr]

/-! ## Process-wide engine state -/

/-- C5: in every run with `argc = 3` the trace is `setlocale`, then
`PdfTools_Initialize`, then the calls of the run, then `PdfTools_Uninitialize` as
the last event; `PdfTools_Initialize` is the first SDK or file call and each of
the two occurs exactly once, so every `fopen`, SDK call, close and release lies
strictly between them, on the failure paths as well. -/
theorem engine_state_bracket (argc : Int) (argv : List String) (env : Env) (h : argc = 3) :
    (∃ mid, (main argc argv env).2 =
        Event.setlocale :: Event.PdfTools_Initialize ::
          (mid ++ [Event.PdfTools_Uninitialize]) ∧
      Event.PdfTools_Initialize ∉ mid ∧ Event.PdfTools_Uninitialize ∉ mid) ∧
    ((main argc argv env).2.filter isEngineOrFile).head? = some Event.PdfTools_Initialize ∧
    (main argc argv env).2.getLast? = some Event.PdfTools_Uninitialize ∧
    (main argc argv env).2.count Event.PdfTools_Initialize = 1 ∧
    (main argc argv env).2.count Event.PdfTools_Uninitialize = 1 := by
  subst h
  refine ⟨⟨(main 3 argv env).2.tail.tail.dropLast, ?_⟩, ?_⟩
  · rcases env_paths env with h1 | ⟨h1, h2⟩ | ⟨h1, h2, h3⟩ | ⟨h1, h2, h3, h4⟩ | ⟨h1, h2, h3, h4⟩
    · rw [main_fopenIn_fails argv env h1]
      simp
    · rw [main_documentOpen_fails argv env h1 h2]
      simp
    · rw [main_fopenOut_fails argv env h1 h2 h3]
      simp
    · rw [main_convert_fails argv env h1 h2 h3 h4]
      simp
    · rw [main_convert_succeeds argv env h1 h2 h3 h4]
      simp
  · rcases env_paths env with h1 | ⟨h1, h2⟩ | ⟨h1, h2, h3⟩ | ⟨h1, h2, h3, h4⟩ | ⟨h1, h2, h3, h4⟩
    · rw [main_fopenIn_fails argv env h1]
      simp [isEngineOrFile]
    · rw [main_documentOpen_fails argv env h1 h2]
      simp [isEngineOrFile]
    · rw [main_fopenOut_fails argv env h1 h2 h3]
      simp [isEngineOrFile]
    · rw [main_convert_fails argv env h1 h2 h3 h4]
      simp [isEngineOrFile]
    · rw [main_convert_succeeds argv env h1 h2 h3 h4]
      simp [isEngineOrFile]

/-- C5 at a concrete input: a run whose input file cannot be opened. -/
theorem engine_state_bracket_witness :
    ((main 3 ["pdftoolspdf2imgsimple", "in.pdf", "out.tif"]
        ⟨false, true, true, true, true, true, 0⟩).2.filter isEngineOrFile).head? =
      some Event.PdfTools_Initialize ∧
    (main 3 ["pdftoolspdf2imgsimple", "in.pdf", "out.tif"]
        ⟨false, true, true, true, true, true, 0⟩).2.getLast? =
      some Event.PdfTools_Uninitialize :=
  have h := engine_state_bracket 3 ["pdftoolspdf2imgsimple", "in.pdf", "out.tif"]
    ⟨false, true, true, true, true, true, 0⟩ rfl
  ⟨h.2.1, h.2.2.1⟩

/-! ## The output document -/

/-- C6: in every run `PdfToolsPdf2Image_Converter_ConvertDocument` is called at
most once, and the calls to `PdfToolsImage_Document_Close` are exactly the
non-null results of that call: one close when it returned an output document,
none when it returned `NULL` or was never reached. -/
theorem output_document_closed_once (argc : Int) (argv : List String) (env : Env) :
    (convertCalls (main argc argv env).2).length ≤ 1 ∧
    outDocCloses (main argc argv env).2 =
      (convertCalls (main argc argv env).2).filter Option.isSome ∧
    (outDocCloses (main argc argv env).2).length =
      (if (convertCalls (main argc argv env).2).any Option.isSome then 1 else 0) := by
  by_cases hc : argc = 3
  · subst hc
    rcases env_paths env with h1 | ⟨h1, h2⟩ | ⟨h1, h2, h3⟩ | ⟨h1, h2, h3, h4⟩ | ⟨h1, h2, h3, h4⟩
    · rw [main_fopenIn_fails argv env h1]
      simp [convertCalls, outDocCloses]
    · rw [main_documentOpen_fails argv env h1 h2]
      simp [convertCalls, outDocCloses]
    · rw [main_fopenOut_fails argv env h1 h2 h3]
      simp [convertCalls, outDocCloses]
    · rw [main_convert_fails argv env h1 h2 h3 h4]
      simp [convertCalls, outDocCloses]
    · rw [main_convert_succeeds argv env h1 h2 h3 h4]
      simp [convertCalls, outDocCloses]
  · rw [main_usage argc argv env hc]
    simp [Usage, convertCalls, outDocCloses]

/-! ## Failures before the output file is opened -/

/-- C7: in a run with `argc = 3` where the input `fopen` returns `NULL`, or the
input stream opens and `PdfToolsPdf_Document_Open` returns `NULL`, `main` returns
1 and the only `fopen` is the read-only open of `argv[1]`: the open of the output
path in mode `wb+` is never made, and no profile, converter or conversion call is
made.  When the input `fopen` fails no document open is made either. -/
theorem no_output_on_input_failure (argv : List String) (env : Env)
    (h : env.fopenIn = false ∨ (env.fopenIn = true ∧ env.documentOpen = false)) :
    (main 3 argv env).1 = 1 ∧
    fopenCalls (main 3 argv env).2 =
      [(argv.getD 1 "", "rb", ptr env.fopenIn .inStream)] ∧
    (∀ p r, (p, "wb+", r) ∉ fopenCalls (main 3 argv env).2) ∧
    Resource.outStream ∉ acquired (main 3 argv env).2 ∧
    (main 3 argv env).2.filter isPipelineCall =
      (if env.fopenIn then [Event.PdfToolsPdf_Document_Open none] else []) := by
  rcases h with h1 | ⟨h1, h2⟩
  · rw [main_fopenIn_fails argv env h1]
    simp [fopenCalls, acquired, isPipelineCall, ptr, h1]
  · rw [main_documentOpen_fails argv env h1 h2]
    simp [fopenCalls, acquired, isPipelineCall, ptr, h1]

/-- C7 at a concrete input: the input file cannot be opened. -/
theorem no_output_on_input_failure_witness :
    (main 3 ["pdftoolspdf2imgsimple", "missing.pdf", "out.tif"]
      ⟨false, true, true, true, true, true, 0⟩).1 = 1 ∧
    fopenCalls (main 3 ["pdftoolspdf2imgsimple", "missing.pdf", "out.tif"]
      ⟨false, true, true, true, true, true, 0⟩).2 = [("missing.pdf", "rb", none)] :=
  have h := no_output_on_input_failure ["pdftoolspdf2imgsimple", "missing.pdf", "out.tif"]
    ⟨false, true, true, true, true, true, 0⟩ (Or.inl rfl)
  ⟨h.1, h.2.1⟩

/-! ## Failure to open the output file -/

/-- C8: in a run with `argc = 3` where the input stream and the input document
open and the output `fopen` returns `NULL`, `main` returns 1; the only `fopen`
that returns a stream is the open of `argv[1]` in mode `rb`;
`PdfToolsPdf2Image_Converter_ConvertDocument` is never called; and cleanup
closes the input document and then the input stream, each exactly once, and
nothing else. -/
theorem output_open_failure (argv : List String) (env : Env) (h1 : env.fopenIn = true)
    (h2 : env.documentOpen = true) (h3 : env.fopenOut = false) :
    (main 3 argv env).1 = 1 ∧
    fopenCalls (main 3 argv env).2 =
      [(argv.getD 1 "", "rb", some .inStream), (argv.getD 2 "", "wb+", none)] ∧
    (∀ p m r, (p, m, some r) ∈ fopenCalls (main 3 argv env).2 → m = "rb") ∧
    convertCalls (main 3 argv env).2 = [] ∧
    released (main 3 argv env).2 = [.inDoc, .inStream] ∧
    (main 3 argv env).2.count (Event.PdfToolsPdf_Document_Close (some .inDoc)) = 1 ∧
    (main 3 argv env).2.count (Event.fclose (some .inStream)) = 1 := by
  rw [main_fopenOut_fails argv env h1 h2 h3]
  simp [fopenCalls, convertCalls, released]
  intro _ m _ _ hm _
  exact hm

/-- C8 at a concrete input: the output path cannot be opened for writing. -/
theorem output_open_failure_witness :
    (main 3 ["pdftoolspdf2imgsimple", "in.pdf", "/nodir/out.tif"]
      ⟨true, true, false, true, true, true, 0⟩).1 = 1 ∧
    released (main 3 ["pdftoolspdf2imgsimple", "in.pdf", "/nodir/out.tif"]
      ⟨true, true, false, true, true, true, 0⟩).2 = [.inDoc, .inStream] :=
  have h := output_open_failure ["pdftoolspdf2imgsimple", "in.pdf", "/nodir/out.tif"]
    ⟨true, true, false, true, true, true, 0⟩ rfl rfl rfl
  ⟨h.1, h.2.2.2.2.1⟩

/-! ## Diagnostics -/

/-- C9 fails as stated for a file-open failure: when the input `fopen` returns
`NULL` the one diagnostic printed carries the path only.  Neither `szErrorBuff`
nor the value of `PdfTools_GetLastError()` is among its arguments, and
`PdfTools_GetLastError` is not called at all. -/
theorem fopen_diagnostic_counterexample :
    printed (main 3 ["pdftoolspdf2imgsimple", "missing.pdf", "out.tif"]
        ⟨false, true, true, true, true, true, 0⟩).2 =
      [("Failed to open the input file \"%s\" for reading.\n", [.str "missing.pdf"])] ∧
    (¬ ∃ d ∈ printed (main 3 ["pdftoolspdf2imgsimple", "missing.pdf", "out.tif"]
        ⟨false, true, true, true, true, true, 0⟩).2,
      PrintfArg.szErrorBuff ∈ d.2 ∨ PrintfArg.lastError ∈ d.2) ∧
    Event.PdfTools_GetLastError ∉
      (main 3 ["pdftoolspdf2imgsimple", "missing.pdf", "out.tif"]
        ⟨false, true, true, true, true, true, 0⟩).2 := by
  rw [main_fopenIn_fails _ _ rfl]
  simp [printed]

/-- C9 (amended): in every run with `argc = 3` in which the input `fopen`, the
document open, the output `fopen` or the conversion fails, `main` returns 1 and
prints exactly one diagnostic, which names the failing operation.  Before the
diagnostic is printed the message length `n` is queried and the message is
fetched into `szErrorBuff` with the size `MIN(ARRAY_SIZE(szErrorBuff), n)`, which
is 0 when `n = 0`.  The document-open diagnostic is then printed with the input
path, `szErrorBuff` as just fetched and the value of a call to
`PdfTools_GetLastError()` made after the fetch; the conversion diagnostic with
the value of such a call only; each of the two file-open diagnostics with the
path of the file and nothing else, and without a call to `PdfTools_GetLastError`. -/
theorem one_diagnostic_per_failure (argv : List String) (env : Env)
    (hfail : ¬ (env.fopenIn = true ∧ env.documentOpen = true ∧ env.fopenOut = true ∧
      env.convertDocument = true)) :
    (main 3 argv env).1 = 1 ∧
    (printed (main 3 argv env).2).length = 1 ∧
    (env.fopenIn = false →
      printed (main 3 argv env).2 =
        [("Failed to open the input file \"%s\" for reading.\n", [.str (argv.getD 1 "")])]) ∧
    (env.fopenIn = true → env.documentOpen = false →
      printed (main 3 argv env).2 =
        [("Failed to create a document from the input file \"%s\". %s (ErrorCode: 0x%08x).\n",
          [.str (argv.getD 1 ""), .szErrorBuff, .lastError])]) ∧
    (env.fopenIn = true → env.documentOpen = true → env.fopenOut = false →
      printed (main 3 argv env).2 =
        [("Failed to open the output file \"%s\" for writing.\n", [.str (argv.getD 2 "")])]) ∧
    (env.fopenIn = true → env.documentOpen = true → env.fopenOut = true →
      env.convertDocument = false →
      printed (main 3 argv env).2 =
        [("The processing has failed. (ErrorCode: 0x%08x).\n", [.lastError])]) ∧
    (env.fopenIn = false →
      diagnosticCalls (main 3 argv env).2 =
        [.PdfTools_GetLastErrorMessage false 0,
          .PdfTools_GetLastErrorMessage true (MIN szErrorBuffSize env.lastErrorMessageSize),
          .printf "Failed to open the input file \"%s\" for reading.\n"
            [.str (argv.getD 1 "")]]) ∧
    (env.fopenIn = true → env.documentOpen = false →
      diagnosticCalls (main 3 argv env).2 =
        [.PdfTools_GetLastErrorMessage false 0,
          .PdfTools_GetLastErrorMessage true (MIN szErrorBuffSize env.lastErrorMessageSize),
          .PdfTools_GetLastError,
          .printf
            "Failed to create a document from the input file \"%s\". %s (ErrorCode: 0x%08x).\n"
            [.str (argv.getD 1 ""), .szErrorBuff, .lastError]]) ∧
    (env.fopenIn = true → env.documentOpen = true → env.fopenOut = false →
      diagnosticCalls (main 3 argv env).2 =
        [.PdfTools_GetLastErrorMessage false 0,
          .PdfTools_GetLastErrorMessage true (MIN szErrorBuffSize env.lastErrorMessageSize),
          .printf "Failed to open the output file \"%s\" for writing.\n"
            [.str (argv.getD 2 "")]]) ∧
    (env.fopenIn = true → env.documentOpen = true → env.fopenOut = true →
      env.convertDocument = false →
      diagnosticCalls (main 3 argv env).2 =
        [.PdfTools_GetLastErrorMessage false 0,
          .PdfTools_GetLastErrorMessage true (MIN szErrorBuffSize env.lastErrorMessageSize),
          .PdfTools_GetLastError,
          .printf "The processing has failed. (ErrorCode: 0x%08x).\n" [.lastError]]) ∧
    (env.lastErrorMessageSize = 0 → MIN szErrorBuffSize env.lastErrorMessageSize = 0) := by
  have h0 : env.lastErrorMessageSize = 0 →
      MIN szErrorBuffSize env.lastErrorMessageSize = 0 := by
    intro hz
    rw [hz]
    simp [MIN]
  rcases env_paths env with h1 | ⟨h1, h2⟩ | ⟨h1, h2, h3⟩ | ⟨h1, h2, h3, h4⟩ | ⟨h1, h2, h3, h4⟩
  · rw [main_fopenIn_fails argv env h1]
    refine ⟨?_, ?_, ?_, ?_, ?_, ?_, ?_, ?_, ?_, ?_, h0⟩ <;>
      simp [printed, diagnosticCalls, h1]
  · rw [main_documentOpen_fails argv env h1 h2]
    refine ⟨?_, ?_, ?_, ?_, ?_, ?_, ?_, ?_, ?_, ?_, h0⟩ <;>
      simp [printed, diagnosticCalls, h1, h2]
  · rw [main_fopenOut_fails argv env h1 h2 h3]
    refine ⟨?_, ?_, ?_, ?_, ?_, ?_, ?_, ?_, ?_, ?_, h0⟩ <;>
      simp [printed, diagnosticCalls, h1, h2, h3]
  · rw [main_convert_fails argv env h1 h2 h3 h4]
    refine ⟨?_, ?_, ?_, ?_, ?_, ?_, ?_, ?_, ?_, ?_, h0⟩ <;>
      simp [printed, diagnosticCalls, h1, h2, h3, h4]
  · exact absurd ⟨h1, h2, h3, h4⟩ hfail

/-- C9 (amended) at a concrete input: the input is not a document the SDK can
open and the reported message length is 12. -/
theorem one_diagnostic_per_failure_witness :
    (main 3 ["pdftoolspdf2imgsimple", "in.txt", "out.tif"]
      ⟨true, false, true, true, true, true, 12⟩).1 = 1 ∧
    printed (main 3 ["pdftoolspdf2imgsimple", "in.txt", "out.tif"]
      ⟨true, false, true, true, true, true, 12⟩).2 =
      [("Failed to create a document from the input file \"%s\". %s (ErrorCode: 0x%08x).\n",
        [.str "in.txt", .szErrorBuff, .lastError])] ∧
    diagnosticCalls (main 3 ["pdftoolspdf2imgsimple", "in.txt", "out.tif"]
      ⟨true, false, true, true, true, true, 12⟩).2 =
      [.PdfTools_GetLastErrorMessage false 0,
        .PdfTools_GetLastErrorMessage true 12,
        .PdfTools_GetLastError,
        .printf
          "Failed to create a document from the input file \"%s\". %s (ErrorCode: 0x%08x).\n"
          [.str "in.txt", .szErrorBuff, .lastError]] := by
  have h := one_diagnostic_per_failure ["pdftoolspdf2imgsimple", "in.txt", "out.tif"]
    ⟨true, false, true, true, true, true, 12⟩ (by decide)
  refine ⟨h.1, h.2.2.2.1 rfl rfl, ?_⟩
  rw [h.2.2.2.2.2.2.2.1 rfl rfl]
  simp [MIN, szErrorBuffSize, ARRAY_SIZE, sizeofTCHAR]

/-! ## The size passed for the error buffer -/

/-- C10: in every failing run with `argc = 3` the error macro calls
`PdfTools_GetLastErrorMessage(NULL, 0)` and then
`PdfTools_GetLastErrorMessage(szErrorBuff, MIN(ARRAY_SIZE(szErrorBuff), n))`,
where `n` is the length the first call reported.  `ARRAY_SIZE(szErrorBuff)` is
1024 and the size passed is `min 1024 n`: at most 1024, equal to `n` when
`n ≤ 1024`, and 0 when `n = 0`. -/
theorem error_buffer_size (argv : List String) (env : Env)
    (hfail : ¬ (env.fopenIn = true ∧ env.documentOpen = true ∧ env.fopenOut = true ∧
      env.convertDocument = true)) :
    errorMessageCalls (main 3 argv env).2 =
      [(false, 0), (true, MIN szErrorBuffSize env.lastErrorMessageSize)] ∧
    szErrorBuffSize = 1024 ∧
    MIN szErrorBuffSize env.lastErrorMessageSize = min 1024 env.lastErrorMessageSize ∧
    MIN szErrorBuffSize env.lastErrorMessageSize ≤ 1024 ∧
    (env.lastErrorMessageSize ≤ 1024 →
      MIN szErrorBuffSize env.lastErrorMessageSize = env.lastErrorMessageSize) ∧
    (env.lastErrorMessageSize = 0 → MIN szErrorBuffSize env.lastErrorMessageSize = 0) := by
  have hsz : szErrorBuffSize = 1024 := by
    simp [szErrorBuffSize, ARRAY_SIZE, sizeofTCHAR]
  have hmin : MIN szErrorBuffSize env.lastErrorMessageSize = min 1024 env.lastErrorMessageSize := by
    rw [hsz]
    unfold MIN
    split_ifs with hlt
    · exact (Nat.min_eq_left (Nat.le_of_lt hlt)).symm
    · exact (Nat.min_eq_right (Nat.le_of_not_lt hlt)).symm
  refine ⟨?_, hsz, hmin, ?_, ?_, ?_⟩
  · rcases env_paths env with h1 | ⟨h1, h2⟩ | ⟨h1, h2, h3⟩ | ⟨h1, h2, h3, h4⟩ | ⟨h1, h2, h3, h4⟩
    · rw [main_fopenIn_fails argv env h1]
      simp [errorMessageCalls]
    · rw [main_documentOpen_fails argv env h1 h2]
      simp [errorMessageCalls]
    · rw [main_fopenOut_fails argv env h1 h2 h3]
      simp [errorMessageCalls]
    · rw [main_convert_fails argv env h1 h2 h3 h4]
      simp [errorMessageCalls]
    · exact absurd ⟨h1, h2, h3, h4⟩ hfail
  · rw [hmin]
    exact Nat.min_le_left _ _
  · intro hle
    rw [hmin]
    exact Nat.min_eq_right hle
  · intro h0
    rw [hmin, h0]
    rfl

/-- C10 at concrete inputs: a reported length of 0 passes size 0, and a
reported length of 5000 passes the capacity 1024. -/
theorem error_buffer_size_witness :
    errorMessageCalls (main 3 ["pdftoolspdf2imgsimple", "in.txt", "out.tif"]
      ⟨true, false, true, true, true, true, 0⟩).2 = [(false, 0), (true, 0)] ∧
    errorMessageCalls (main 3 ["pdftoolspdf2imgsimple", "in.txt", "out.tif"]
      ⟨true, false, true, true, true, true, 5000⟩).2 = [(false, 0), (true, 1024)] := by
  have h0 := error_buffer_size ["pdftoolspdf2imgsimple", "in.txt", "out.tif"]
    ⟨true, false, true, true, true, true, 0⟩ (by decide)
  have h1 := error_buffer_size ["pdftoolspdf2imgsimple", "in.txt", "out.tif"]
    ⟨true, false, true, true, true, true, 5000⟩ (by decide)
  refine ⟨?_, ?_⟩
  · rw [h0.1, h0.2.2.1]
    simp
  · rw [h1.1, h1.2.2.1]
    simp

end Pdf2Img
